import Mathlib

/-!
# Registration backend (`server.js`): embedding and verified properties

The server is three Express handlers over one lazily connected MongoDB collection.
The embedding is explicit state passing:

* the module-level variables `client`, `db`, `collection` are the record `Conn`;
* everything outside the file (the clock, the MongoDB driver and the store behind it) answers
  through an oracle `Io`, one per request, so that every outcome the collaborators can produce is
  covered;
* each handler returns the new `Conn`, the response it sends and the list of external calls it
  made, in program order.

Requests are run one after the other (`serve`); interleaving of concurrent requests is outside
the model.
-/

set_option autoImplicit false

namespace Server

/-! ## Values -/

/-- JavaScript values that occur in request bodies, stored documents and response payloads.
`date ms` is a `Date` object holding the clock reading `ms`. -/
inductive JVal where
  | null
  | bool (b : Bool)
  | num (n : Int)
  | str (s : String)
  | arr (items : List JVal)
  | obj (fields : List (String × JVal))
  | date (ms : Nat)

/-- Own enumerable properties of an object, in property order. -/
abbrev Props := List (String × JVal)

/-- Property read `o[k]`: `none` is `undefined`. -/
def getProp (o : Props) (k : String) : Option JVal :=
  match o with
  | [] => none
  | (k', v) :: rest => if k' = k then some v else getProp rest k

/-- Property write `o[k] = v`: an existing property keeps its place and takes the new value,
a new property goes last. -/
def setProp (o : Props) (k : String) (v : JVal) : Props :=
  match o with
  | [] => [(k, v)]
  | (k', v') :: rest => if k' = k then (k', v) :: rest else (k', v') :: setProp rest k v

/-- Spread `...src` into `target`, over the keys `ks` of `src`: for each key in order,
read the value from the source and define it on the target. -/
def copyKeys (src : Props) (ks : List String) (target : Props) : Props :=
  match ks with
  | [] => target
  | k :: rest =>
    match getProp src k with
    | some v => copyKeys src rest (setProp target k v)
    | none => copyKeys src rest target

/-- Spread `...src` into `target` over all own keys of `src`. -/
def copyDataProperties (target src : Props) : Props :=
  copyKeys src (src.map Prod.fst) target

/-- Index keys `"i"`, `"i+1"`, ... of array items. -/
def indexed (i : Nat) (items : List JVal) : Props :=
  match items with
  | [] => []
  | x :: rest => (toString i, x) :: indexed (i + 1) rest

/-- Content of `req.body` after `express.json()`: the middleware (strict by default) accepts only
a JSON object or a JSON array, and a request without a JSON body leaves no payload. -/
inductive Body where
  | object (fields : Props)
  | array (items : List JVal)
  | absent

/-- Own enumerable properties that `...req.body` copies. -/
def Body.entries : Body → Props
  | .object fields => fields
  | .array items => indexed 0 items
  | .absent => []

/-- A thrown `Error`, of which the handlers read `message`. -/
structure JsError where
  message : String
deriving DecidableEq, Repr

/-! ## Configuration -/

/-- Environment variables read by the program (`process.env`). -/
structure ProcessEnv where
  PORT : Option String
  MONGODB_URI : Option String
  DATABASE_NAME : Option String
  COLLECTION_NAME : Option String
  NODE_ENV : Option String
deriving DecidableEq, Repr

/-- Operator `v || d` on an environment variable: unset and empty both yield the default. -/
def orDefault (v : Option String) (d : String) : String :=
  match v with
  | none => d
  | some s => if s = "" then d else s

/-- Record `mongoConfig`. -/
structure MongoConfig where
  uri : Option String
  databaseName : String
  collectionName : String
deriving DecidableEq, Repr

/-- Value of `mongoConfig` for an environment. -/
def mongoConfig (env : ProcessEnv) : MongoConfig :=
  { uri := env.MONGODB_URI
    databaseName := orDefault env.DATABASE_NAME "bit-hackathon"
    collectionName := orDefault env.COLLECTION_NAME "registrations" }

/-! ## Connection state -/

/-- Object built by `new MongoClient(uri)`. -/
structure MongoClient where
  uri : Option String
deriving DecidableEq, Repr

/-- Object returned by `client.db(name)`. -/
structure Db where
  client : MongoClient
  name : String
deriving DecidableEq, Repr

/-- Object returned by `db.collection(name)`. -/
structure Collection where
  db : Db
  name : String
deriving DecidableEq, Repr

/-- Module-level variables `client`, `db`, `collection` (`none` is `undefined`); also the shape of
the object `{ client, db, collection }` that `initializeMongoDB` returns. -/
structure Conn where
  client : Option MongoClient
  db : Option Db
  collection : Option Collection
deriving DecidableEq, Repr

/-- State at process start: the three variables are declared without a value. -/
def Conn.start : Conn := ⟨none, none, none⟩

/-- No handle exists: all three variables unset. -/
def Conn.disconnected (s : Conn) : Prop :=
  s.client = none ∧ s.db = none ∧ s.collection = none

/-- Full handle exists: all three variables set. -/
def Conn.connected (s : Conn) : Prop :=
  s.client ≠ none ∧ s.db ≠ none ∧ s.collection ≠ none

instance (s : Conn) : Decidable s.disconnected := by unfold Conn.disconnected; infer_instance

instance (s : Conn) : Decidable s.connected := by unfold Conn.connected; infer_instance

/-! ## Collaborators -/

/-- Answers of the collaborators during one request. The clock: `start` is its reading when
the request reaches the handler and `elapsed` the time that passes until the handler evaluates
`new Date()`; time does not run backwards. Then the outcome of `new MongoClient(uri)` (it throws
on a malformed connection string), of `client.connect()`, of `collection.insertOne(doc)` (the
`insertedId` of the result, or the error) and of `collection.find({}).toArray()`. An answer is
only consulted if the call is made. -/
structure Io where
  start : Nat
  elapsed : Nat
  construct : Except JsError Unit
  connect : Except JsError Unit
  insertOne : Except JsError JVal
  toArray : Except JsError (List Props)

/-- Clock reading that `new Date()` takes during the request. -/
def Io.now (io : Io) : Nat :=
  io.start + io.elapsed

/-- External calls, in program order. -/
inductive Effect where
  | newMongoClient (uri : Option String)
  | connect
  | insertOne (doc : Props) (accepted : Bool)
  | findToArray
  | consoleLog (text : String)
  | consoleError (text : String) (e : JsError)

/-- Whether the effect is a connect handshake. -/
def Effect.isConnect : Effect → Bool
  | .connect => true
  | _ => false

/-- Whether the effect builds a client. -/
def Effect.isNewClient : Effect → Bool
  | .newMongoClient _ => true
  | _ => false

/-- Whether the effect is an insert into the collection. -/
def Effect.isInsert : Effect → Bool
  | .insertOne _ _ => true
  | _ => false

/-- Whether the effect is a query of the collection. -/
def Effect.isFind : Effect → Bool
  | .findToArray => true
  | _ => false

/-- Result of running `initializeMongoDB`: the variables afterwards, the calls made, and the
returned object or the rethrown error. -/
structure Init where
  conn : Conn
  effects : List Effect
  result : Except JsError Conn

/-- Function `initializeMongoDB`. The assignment to `client` takes place as soon as the
constructor returns, before the handshake is awaited; `db` and `collection` are assigned after
it. `client.db` and `db.collection` only build handles, without I/O. The `catch` logs and
rethrows. -/
def initializeMongoDB (cfg : MongoConfig) (io : Io) (s : Conn) : Init :=
  match s.client with
  | none =>
    match io.construct with
    | .error e =>
      ⟨s, [.newMongoClient cfg.uri, .consoleError "MongoDB connection failed:" e], .error e⟩
    | .ok _ =>
      let c : MongoClient := ⟨cfg.uri⟩
      match io.connect with
      | .error e =>
        ⟨{ s with client := some c },
          [.newMongoClient cfg.uri, .connect, .consoleError "MongoDB connection failed:" e],
          .error e⟩
      | .ok _ =>
        let d : Db := ⟨c, cfg.databaseName⟩
        let col : Collection := ⟨d, cfg.collectionName⟩
        ⟨⟨some c, some d, some col⟩,
          [.newMongoClient cfg.uri, .connect, .consoleLog "Connected to MongoDB Atlas"],
          .ok ⟨some c, some d, some col⟩⟩
  | some _ => ⟨s, [], .ok ⟨s.client, s.db, s.collection⟩⟩

/-! ## Handlers -/

/-- Response sent: the status and the value given to `res.json`. -/
structure Response where
  status : Nat
  body : Props

/-- Result of a handler: the variables afterwards, the calls made, the response. -/
structure Outcome where
  conn : Conn
  effects : List Effect
  response : Response

/-- Error raised by reading property `name` of `undefined`. -/
def typeErrorReading (name : String) : JsError :=
  ⟨"Cannot read properties of undefined (reading '" ++ name ++ "')"⟩

/-- Payload of the `catch` branches. -/
def failureBody (message : String) (e : JsError) : Props :=
  [("success", .bool false), ("message", .str message), ("error", .str e.message)]

/-- Response of the `catch` branches. -/
def failure (message : String) (e : JsError) : Response :=
  ⟨500, failureBody message e⟩

/-- Handler of `GET /api/health`. -/
def health (s : Conn) : Outcome :=
  ⟨s, [], ⟨200, [("status", .str "OK"), ("message", .str "Server is running")]⟩⟩

/-- Object literal `{ ...req.body, submittedAt: new Date() }`. -/
def registrationData (body : Body) (now : Nat) : Props :=
  setProp (copyDataProperties [] body.entries) "submittedAt" (.date now)

/-- Handler of `POST /api/register`. -/
def register (cfg : MongoConfig) (io : Io) (s : Conn) (body : Body) : Outcome :=
  let doc := registrationData body io.now
  let i := initializeMongoDB cfg io s
  match i.result with
  | .error e =>
    ⟨i.conn, i.effects ++ [.consoleError "Registration failed:" e],
      failure "Registration failed" e⟩
  | .ok h =>
    match h.collection with
    | none =>
      let e := typeErrorReading "insertOne"
      ⟨i.conn, i.effects ++ [.consoleError "Registration failed:" e],
        failure "Registration failed" e⟩
    | some _ =>
      match io.insertOne with
      | .error e =>
        ⟨i.conn, i.effects ++ [.insertOne doc false, .consoleError "Registration failed:" e],
          failure "Registration failed" e⟩
      | .ok id =>
        ⟨i.conn, i.effects ++ [.insertOne doc true],
          ⟨201, [("success", .bool true), ("message", .str "Registration successful"),
            ("id", id)]⟩⟩

/-- Handler of `GET /api/registrations`. -/
def registrations (cfg : MongoConfig) (io : Io) (s : Conn) : Outcome :=
  let i := initializeMongoDB cfg io s
  match i.result with
  | .error e =>
    ⟨i.conn, i.effects ++ [.consoleError "Failed to fetch registrations:" e],
      failure "Failed to fetch registrations" e⟩
  | .ok h =>
    match h.collection with
    | none =>
      let e := typeErrorReading "find"
      ⟨i.conn, i.effects ++ [.consoleError "Failed to fetch registrations:" e],
        failure "Failed to fetch registrations" e⟩
    | some _ =>
      match io.toArray with
      | .error e =>
        ⟨i.conn, i.effects ++ [.findToArray, .consoleError "Failed to fetch registrations:" e],
          failure "Failed to fetch registrations" e⟩
      | .ok docs =>
        ⟨i.conn, i.effects ++ [.findToArray],
          ⟨200, [("success", .bool true), ("count", .num docs.length),
            ("data", .arr (docs.map JVal.obj))]⟩⟩

/-- Requests the three routes accept. -/
inductive Request where
  | health
  | register (body : Body)
  | registrations

/-- Whether the request goes to one of the two data routes. -/
def Request.isData : Request → Bool
  | .health => false
  | _ => true

/-- Route dispatch. -/
def handle (cfg : MongoConfig) (io : Io) (s : Conn) : Request → Outcome
  | .health => health s
  | .register body => register cfg io s body
  | .registrations => registrations cfg io s

/-- Requests served one after the other, each with its own collaborator answers; the
connection variables are carried from one request to the next. -/
def serve (cfg : MongoConfig) (s : Conn) : List (Request × Io) → List Outcome
  | [] => []
  | (r, io) :: rest =>
    let o := handle cfg io s r
    o :: serve cfg o.conn rest

/-- Connection variables after serving the requests. -/
def connAfter (cfg : MongoConfig) (s : Conn) : List (Request × Io) → Conn
  | [] => s
  | (r, io) :: rest => connAfter cfg (handle cfg io s r).conn rest

/-- Contents of the collection after a run of effects: every accepted `insertOne` adds its
document, nothing else changes the contents. -/
def storeAfter (contents : List Props) : List Effect → List Props
  | [] => contents
  | .insertOne doc true :: rest => storeAfter (contents ++ [doc]) rest
  | _ :: rest => storeAfter contents rest

/-- The gateway yields a collection for this request: no client exists yet and both the
construction and the handshake succeed, or a client exists and the collection is set. -/
def establishes (io : Io) (s : Conn) : Bool :=
  match s.client with
  | none => io.construct.toBool && io.connect.toBool
  | some _ => s.collection.isSome

/-- Number of effects of a run that satisfy `p`. -/
def countEffects (p : Effect → Bool) (es : List Effect) : Nat :=
  (es.filter p).length

/-- Documents of the `data` field of a response payload. -/
def dataOf (body : Props) : List JVal :=
  match getProp body "data" with
  | some (.arr items) => items
  | _ => []

/-- Store-side failure `e` met by a data request: on a gateway without client, building the
client throws `e` or the handshake fails with `e`; or the connection is established and the call
of the route (the insert for create, the query for list) fails with `e`. -/
def failsWith (io : Io) (s : Conn) (r : Request) (e : JsError) : Prop :=
  (s.client = none ∧ io.construct = .error e) ∨
  (s.client = none ∧ io.construct.toBool = true ∧ io.connect = .error e) ∨
  (establishes io s = true ∧
    match r with
    | .health => False
    | .register _ => io.insertOne = .error e
    | .registrations => io.toArray = .error e)

/-- The store cannot be reached during this request: building the client throws (malformed
connection string), or the client is built and the handshake fails (unreachable store); the
error of the driver carries a non-empty message. -/
def Io.storeDown (io : Io) : Prop :=
  (∃ e, io.construct = .error e ∧ e.message ≠ "") ∨
  (io.construct.toBool = true ∧ ∃ e, io.connect = .error e ∧ e.message ≠ "")

/-- All external calls of a series of outcomes, in order. -/
def allEffects : List Outcome → List Effect
  | [] => []
  | o :: rest => o.effects ++ allEffects rest

/-- Whether the request goes to the route that writes. -/
def Request.isWrite : Request → Bool
  | .register _ => true
  | _ => false

/-- The store answers queries faithfully along a series of requests: whenever the query of a
list request of the series succeeds, its answer holds the documents of the collection at that moment, in some
order. The contents follow the effects of the requests served before. -/
def faithfulFinds (cfg : MongoConfig) : Conn → List Props → List (Request × Io) → Prop
  | _, _, [] => True
  | s, contents, (r, io) :: rest =>
    (r = .registrations → ∀ docs, io.toArray = .ok docs → docs.Perm contents) ∧
      faithfulFinds cfg (handle cfg io s r).conn
        (storeAfter contents (handle cfg io s r).effects) rest

/-! ## Sample inputs -/

/-- Configuration read from an environment that only sets a local connection string. -/
def localConfig : MongoConfig :=
  mongoConfig ⟨none, some "mongodb://localhost:27017", none, none, none⟩

/-- Collaborators that all succeed: request received and stamped at clock reading `now`, store
identifier `id`, query answer `docs`. -/
def Io.healthy (now : Nat) (id : JVal) (docs : List Props) : Io :=
  ⟨now, 0, .ok (), .ok (), .ok id, .ok docs⟩

/-- Collaborators of an unreachable store: the client is built, the handshake fails with `e`. -/
def Io.unreachable (now : Nat) (e : JsError) : Io :=
  ⟨now, 0, .ok (), .error e, .error e, .error e⟩

/-- Connection variables after a successful establishment under `localConfig`. -/
def Conn.ready : Conn :=
  (initializeMongoDB localConfig (Io.healthy 0 .null []) Conn.start).conn

/-- Series of two data requests during which the handshake is refused. -/
def downSeries : List (Request × Io) :=
  [(.register (.object [("name", .str "Alice")]),
      Io.unreachable 1 ⟨"connect ECONNREFUSED 127.0.0.1:27017"⟩),
    (.registrations, Io.unreachable 2 ⟨"connect ECONNREFUSED 127.0.0.1:27017"⟩)]

/-- Series of requests without a create request: a list request, a health check and a second
list request that the store answers in another order. -/
def readSeries : List (Request × Io) :=
  [(.registrations, Io.healthy 1 .null [[("name", .str "Alice")], [("name", .str "Bob")]]),
    (.health, Io.unreachable 2 ⟨"connect ECONNREFUSED 127.0.0.1:27017"⟩),
    (.registrations, Io.healthy 3 .null [[("name", .str "Bob")], [("name", .str "Alice")]])]

/-! ## Properties of objects -/

theorem getProp_setProp_same (o : Props) (k : String) (v : JVal) :
    getProp (setProp o k v) k = some v := by
  induction o with
  | nil => simp [setProp, getProp]
  | cons p rest ih =>
    obtain ⟨k', v'⟩ := p
    by_cases hk : k' = k
    · simp [setProp, getProp, hk]
    · simp [setProp, getProp, hk, ih]

theorem getProp_setProp_other (o : Props) (k k' : String) (v : JVal) (h : k' ≠ k) :
    getProp (setProp o k v) k' = getProp o k' := by
  induction o with
  | nil => simp [setProp, getProp, Ne.symm h]
  | cons p rest ih =>
    obtain ⟨k₀, v₀⟩ := p
    by_cases hk : k₀ = k
    · subst hk
      simp [setProp, getProp, Ne.symm h]
    · by_cases hk' : k₀ = k'
      · subst hk'
        simp [setProp, getProp, hk]
      · simp [setProp, getProp, hk, hk', ih]

theorem getProp_eq_none_of_not_mem (o : Props) (k : String) (h : k ∉ o.map Prod.fst) :
    getProp o k = none := by
  induction o with
  | nil => rfl
  | cons p rest ih =>
    obtain ⟨k₀, v₀⟩ := p
    simp only [List.map_cons, List.mem_cons, not_or] at h
    simp [getProp, Ne.symm h.1, ih h.2]

theorem getProp_ne_none_of_mem (o : Props) (k : String) (v : JVal) (h : (k, v) ∈ o) :
    getProp o k ≠ none := by
  induction o with
  | nil => simp at h
  | cons p rest ih =>
    obtain ⟨k₀, v₀⟩ := p
    by_cases hk : k₀ = k
    · simp [getProp, hk]
    · have hmem : (k, v) ∈ rest := by
        rcases List.mem_cons.mp h with heq | hin
        · exact absurd (congrArg Prod.fst heq).symm hk
        · exact hin
      simp [getProp, hk, ih hmem]

theorem mem_keys_of_getProp_ne_none (o : Props) (k : String) (h : getProp o k ≠ none) :
    k ∈ o.map Prod.fst := by
  by_contra hk
  exact h (getProp_eq_none_of_not_mem o k hk)

theorem getProp_copyKeys (src : Props) (ks : List String) (target : Props) (k : String) :
    getProp (copyKeys src ks target) k =
      if k ∈ ks ∧ (getProp src k).isSome then getProp src k else getProp target k := by
  induction ks generalizing target with
  | nil => simp [copyKeys]
  | cons k₀ rest ih =>
    unfold copyKeys
    cases hsrc : getProp src k₀ with
    | none =>
      simp only [ih]
      by_cases hk : k = k₀
      · subst hk
        simp [hsrc]
      · simp [hk]
    | some v =>
      simp only [ih]
      by_cases hk : k = k₀
      · subst hk
        simp [hsrc, getProp_setProp_same]
      · simp [hk, getProp_setProp_other _ _ _ _ hk]

theorem getProp_copyDataProperties_nil (src : Props) (k : String) :
    getProp (copyDataProperties [] src) k = getProp src k := by
  unfold copyDataProperties
  rw [getProp_copyKeys]
  cases h : getProp src k with
  | none => simp [getProp]
  | some v =>
    have hk : k ∈ src.map Prod.fst := mem_keys_of_getProp_ne_none src k (by simp [h])
    simp [hk]

theorem getProp_registrationData_other (body : Body) (now : Nat) (k : String)
    (h : k ≠ "submittedAt") :
    getProp (registrationData body now) k = getProp body.entries k := by
  unfold registrationData
  rw [getProp_setProp_other _ _ _ _ h, getProp_copyDataProperties_nil]

theorem getProp_registrationData_submittedAt (body : Body) (now : Nat) :
    getProp (registrationData body now) "submittedAt" = some (.date now) := by
  unfold registrationData
  exact getProp_setProp_same _ _ _

theorem registrationData_of_entries_nil (body : Body) (now : Nat) (h : body.entries = []) :
    registrationData body now = [("submittedAt", .date now)] := by
  simp [registrationData, h, copyDataProperties, copyKeys, setProp]

/-! ## The gateway -/

theorem initializeMongoDB_of_client (cfg : MongoConfig) (io : Io) (s : Conn) (c : MongoClient)
    (h : s.client = some c) :
    initializeMongoDB cfg io s = ⟨s, [], .ok ⟨s.client, s.db, s.collection⟩⟩ := by
  simp [initializeMongoDB, h]

theorem initializeMongoDB_construct_error (cfg : MongoConfig) (io : Io) (s : Conn) (e : JsError)
    (h : s.client = none) (hc : io.construct = .error e) :
    initializeMongoDB cfg io s =
      ⟨s, [.newMongoClient cfg.uri, .consoleError "MongoDB connection failed:" e], .error e⟩ := by
  simp [initializeMongoDB, h, hc]

theorem initializeMongoDB_connect_error (cfg : MongoConfig) (io : Io) (s : Conn) (u : Unit)
    (e : JsError) (h : s.client = none) (hc : io.construct = .ok u) (hh : io.connect = .error e) :
    initializeMongoDB cfg io s =
      ⟨{ s with client := some ⟨cfg.uri⟩ },
        [.newMongoClient cfg.uri, .connect, .consoleError "MongoDB connection failed:" e],
        .error e⟩ := by
  simp [initializeMongoDB, h, hc, hh]

theorem initializeMongoDB_connect_ok (cfg : MongoConfig) (io : Io) (s : Conn) (u u' : Unit)
    (h : s.client = none) (hc : io.construct = .ok u) (hh : io.connect = .ok u') :
    initializeMongoDB cfg io s =
      ⟨⟨some ⟨cfg.uri⟩, some ⟨⟨cfg.uri⟩, cfg.databaseName⟩,
          some ⟨⟨⟨cfg.uri⟩, cfg.databaseName⟩, cfg.collectionName⟩⟩,
        [.newMongoClient cfg.uri, .connect, .consoleLog "Connected to MongoDB Atlas"],
        .ok ⟨some ⟨cfg.uri⟩, some ⟨⟨cfg.uri⟩, cfg.databaseName⟩,
          some ⟨⟨⟨cfg.uri⟩, cfg.databaseName⟩, cfg.collectionName⟩⟩⟩ := by
  simp [initializeMongoDB, h, hc, hh]

/-- With an established connection the gateway returns the variables it leaves behind, with the
collection set, and all calls it made are the construction and the handshake. -/
theorem initializeMongoDB_of_establishes (cfg : MongoConfig) (io : Io) (s : Conn)
    (h : establishes io s = true) :
    ∃ c d col, (initializeMongoDB cfg io s).result = .ok ⟨some c, d, some col⟩ ∧
      (initializeMongoDB cfg io s).conn = ⟨some c, d, some col⟩ ∧
      countEffects Effect.isInsert (initializeMongoDB cfg io s).effects = 0 ∧
      countEffects Effect.isFind (initializeMongoDB cfg io s).effects = 0 ∧
      countEffects Effect.isConnect (initializeMongoDB cfg io s).effects ≤ 1 ∧
      countEffects Effect.isNewClient (initializeMongoDB cfg io s).effects ≤ 1 := by
  obtain ⟨cl, d, col⟩ := s
  cases cl with
  | none =>
    simp only [establishes, Bool.and_eq_true] at h
    cases hc : io.construct with
    | error e => simp [hc, Except.toBool] at h
    | ok u =>
      cases hh : io.connect with
      | error e => simp [hh, Except.toBool] at h
      | ok u' =>
        refine ⟨⟨cfg.uri⟩, some ⟨⟨cfg.uri⟩, cfg.databaseName⟩,
          ⟨⟨⟨cfg.uri⟩, cfg.databaseName⟩, cfg.collectionName⟩, ?_⟩
        rw [initializeMongoDB_connect_ok cfg io _ u u' rfl hc hh]
        simp [countEffects, Effect.isInsert, Effect.isFind, Effect.isConnect, Effect.isNewClient]
  | some c =>
    cases col with
    | none => simp [establishes] at h
    | some col =>
      refine ⟨c, d, col, ?_⟩
      rw [initializeMongoDB_of_client cfg io _ c rfl]
      simp [countEffects]

/-- Calls of the gateway are never inserts or queries, and it makes at most one handshake with
at most one client. -/
theorem initializeMongoDB_effects (cfg : MongoConfig) (io : Io) (s : Conn) :
    countEffects Effect.isInsert (initializeMongoDB cfg io s).effects = 0 ∧
      countEffects Effect.isFind (initializeMongoDB cfg io s).effects = 0 ∧
      countEffects Effect.isConnect (initializeMongoDB cfg io s).effects ≤ 1 ∧
      countEffects Effect.isNewClient (initializeMongoDB cfg io s).effects ≤ 1 ∧
      ∀ doc acc, Effect.insertOne doc acc ∉ (initializeMongoDB cfg io s).effects := by
  obtain ⟨cl, d, col⟩ := s
  cases cl <;> cases hc : io.construct <;> cases hh : io.connect <;>
    simp [initializeMongoDB, hc, hh, countEffects, Effect.isInsert, Effect.isFind,
      Effect.isConnect, Effect.isNewClient]

theorem countEffects_append (p : Effect → Bool) (xs ys : List Effect) :
    countEffects p (xs ++ ys) = countEffects p xs + countEffects p ys := by
  simp [countEffects]

/-! ## The handlers, case by case -/

theorem register_of_init_error (cfg : MongoConfig) (io : Io) (s : Conn) (body : Body)
    (e : JsError) (h : (initializeMongoDB cfg io s).result = .error e) :
    register cfg io s body =
      ⟨(initializeMongoDB cfg io s).conn,
        (initializeMongoDB cfg io s).effects ++ [.consoleError "Registration failed:" e],
        failure "Registration failed" e⟩ := by
  simp [register, h]

theorem register_of_no_collection (cfg : MongoConfig) (io : Io) (s : Conn) (body : Body)
    (c : MongoClient) (h : s.client = some c) (hcol : s.collection = none) :
    register cfg io s body =
      ⟨s, [.consoleError "Registration failed:" (typeErrorReading "insertOne")],
        failure "Registration failed" (typeErrorReading "insertOne")⟩ := by
  simp [register, initializeMongoDB_of_client cfg io s c h, hcol]

theorem register_of_insert_error (cfg : MongoConfig) (io : Io) (s : Conn) (body : Body)
    (e : JsError) (h : establishes io s = true) (hi : io.insertOne = .error e) :
    register cfg io s body =
      ⟨(initializeMongoDB cfg io s).conn,
        (initializeMongoDB cfg io s).effects ++
          [.insertOne (registrationData body io.now) false,
            .consoleError "Registration failed:" e],
        failure "Registration failed" e⟩ := by
  obtain ⟨c, d, col, hres, -⟩ := initializeMongoDB_of_establishes cfg io s h
  simp [register, hres, hi]

theorem register_of_insert_ok (cfg : MongoConfig) (io : Io) (s : Conn) (body : Body)
    (id : JVal) (h : establishes io s = true) (hi : io.insertOne = .ok id) :
    register cfg io s body =
      ⟨(initializeMongoDB cfg io s).conn,
        (initializeMongoDB cfg io s).effects ++ [.insertOne (registrationData body io.now) true],
        ⟨201, [("success", .bool true), ("message", .str "Registration successful"),
          ("id", id)]⟩⟩ := by
  obtain ⟨c, d, col, hres, -⟩ := initializeMongoDB_of_establishes cfg io s h
  simp [register, hres, hi]

theorem registrations_of_init_error (cfg : MongoConfig) (io : Io) (s : Conn)
    (e : JsError) (h : (initializeMongoDB cfg io s).result = .error e) :
    registrations cfg io s =
      ⟨(initializeMongoDB cfg io s).conn,
        (initializeMongoDB cfg io s).effects ++ [.consoleError "Failed to fetch registrations:" e],
        failure "Failed to fetch registrations" e⟩ := by
  simp [registrations, h]

theorem registrations_of_no_collection (cfg : MongoConfig) (io : Io) (s : Conn)
    (c : MongoClient) (h : s.client = some c) (hcol : s.collection = none) :
    registrations cfg io s =
      ⟨s, [.consoleError "Failed to fetch registrations:" (typeErrorReading "find")],
        failure "Failed to fetch registrations" (typeErrorReading "find")⟩ := by
  simp [registrations, initializeMongoDB_of_client cfg io s c h, hcol]

theorem registrations_of_find_error (cfg : MongoConfig) (io : Io) (s : Conn)
    (e : JsError) (h : establishes io s = true) (hf : io.toArray = .error e) :
    registrations cfg io s =
      ⟨(initializeMongoDB cfg io s).conn,
        (initializeMongoDB cfg io s).effects ++
          [.findToArray, .consoleError "Failed to fetch registrations:" e],
        failure "Failed to fetch registrations" e⟩ := by
  obtain ⟨c, d, col, hres, -⟩ := initializeMongoDB_of_establishes cfg io s h
  simp [registrations, hres, hf]

theorem registrations_of_find_ok (cfg : MongoConfig) (io : Io) (s : Conn)
    (docs : List Props) (h : establishes io s = true) (hf : io.toArray = .ok docs) :
    registrations cfg io s =
      ⟨(initializeMongoDB cfg io s).conn,
        (initializeMongoDB cfg io s).effects ++ [.findToArray],
        ⟨200, [("success", .bool true), ("count", .num docs.length),
          ("data", .arr (docs.map JVal.obj))]⟩⟩ := by
  obtain ⟨c, d, col, hres, -⟩ := initializeMongoDB_of_establishes cfg io s h
  simp [registrations, hres, hf]

/-- Without an established connection the gateway throws, or a client exists without
collection. -/
theorem not_establishes_cases (cfg : MongoConfig) (io : Io) (s : Conn)
    (h : establishes io s = false) :
    (∃ e, s.client = none ∧ (initializeMongoDB cfg io s).result = .error e) ∨
      (∃ c, s.client = some c ∧ s.collection = none) := by
  obtain ⟨cl, d, col⟩ := s
  cases cl with
  | none =>
    left
    cases hc : io.construct with
    | error e => exact ⟨e, rfl, by simp [initializeMongoDB, hc]⟩
    | ok u =>
      cases hh : io.connect with
      | error e => exact ⟨e, rfl, by simp [initializeMongoDB, hc, hh]⟩
      | ok u' => simp [establishes, hc, hh, Except.toBool] at h
  | some c =>
    right
    cases col with
    | none => exact ⟨c, rfl, rfl⟩
    | some col => simp [establishes] at h

/-- Every insert a create-registration request issues carries the stamped body. -/
theorem register_insert_doc (cfg : MongoConfig) (io : Io) (s : Conn) (body : Body)
    (doc : Props) (acc : Bool)
    (h : Effect.insertOne doc acc ∈ (register cfg io s body).effects) :
    doc = registrationData body io.now := by
  have hno := (initializeMongoDB_effects cfg io s).2.2.2.2
  cases hest : establishes io s with
  | true =>
    cases hi : io.insertOne with
    | error e =>
      rw [register_of_insert_error cfg io s body e hest hi] at h
      simp [hno] at h
      exact h.1
    | ok id =>
      rw [register_of_insert_ok cfg io s body id hest hi] at h
      simp [hno] at h
      exact h.1
  | false =>
    rcases not_establishes_cases cfg io s hest with ⟨e, -, he⟩ | ⟨c, hc, hcol⟩
    · rw [register_of_init_error cfg io s body e he] at h
      simp [hno] at h
    · rw [register_of_no_collection cfg io s body c hc hcol] at h
      simp at h

/-- A create-registration request issues at most one insert. -/
theorem register_insert_count (cfg : MongoConfig) (io : Io) (s : Conn) (body : Body) :
    countEffects Effect.isInsert (register cfg io s body).effects ≤ 1 := by
  have hno := (initializeMongoDB_effects cfg io s).1
  cases hest : establishes io s with
  | true =>
    cases hi : io.insertOne with
    | error e =>
      rw [register_of_insert_error cfg io s body e hest hi, countEffects_append, hno]
      simp [countEffects, Effect.isInsert]
    | ok id =>
      rw [register_of_insert_ok cfg io s body id hest hi, countEffects_append, hno]
      simp [countEffects, Effect.isInsert]
  | false =>
    rcases not_establishes_cases cfg io s hest with ⟨e, -, he⟩ | ⟨c, hc, hcol⟩
    · rw [register_of_init_error cfg io s body e he, countEffects_append, hno]
      simp [countEffects, Effect.isInsert]
    · rw [register_of_no_collection cfg io s body c hc hcol]
      simp [countEffects, Effect.isInsert]

theorem handle_effect_counts (cfg : MongoConfig) (io : Io) (s : Conn) (r : Request) :
    countEffects Effect.isNewClient (handle cfg io s r).effects ≤ 1 ∧
      countEffects Effect.isConnect (handle cfg io s r).effects ≤ 1 ∧
      countEffects Effect.isInsert (handle cfg io s r).effects ≤ 1 ∧
      countEffects Effect.isFind (handle cfg io s r).effects ≤ 1 := by
  obtain ⟨cl, d, col⟩ := s
  cases r <;> cases cl <;> cases col <;> cases hc : io.construct <;> cases hh : io.connect <;>
    cases hi : io.insertOne <;> cases hf : io.toArray <;>
    simp [handle, health, register, registrations, initializeMongoDB, hc, hh, hi, hf,
      countEffects, Effect.isInsert, Effect.isFind, Effect.isConnect, Effect.isNewClient]

theorem typeErrorReading_message_ne (name : String) : (typeErrorReading name).message ≠ "" := by
  intro h
  have := congrArg String.length h
  simp only [typeErrorReading, String.length_append] at this
  have h2 : "')".length = 2 := by decide
  have h0 : "".length = 0 := by decide
  omega

/-! ## Health check -/

/-- C6: in every state of the connection variables and whatever the collaborators would answer,
`GET /api/health` responds 200 with `status` equal to `"OK"`, makes no external call at all
(neither to the gateway nor to the store) and leaves the connection variables unchanged. -/
theorem health_always_ok (cfg : MongoConfig) (io : Io) (s : Conn) :
    (handle cfg io s .health).response.status = 200 ∧
      getProp (handle cfg io s .health).response.body "status" = some (.str "OK") ∧
      (handle cfg io s .health).response.body =
        [("status", .str "OK"), ("message", .str "Server is running")] ∧
      (handle cfg io s .health).effects = [] ∧
      (handle cfg io s .health).conn = s := by
  simp [handle, health, getProp]

/-! ## Create registration -/

/-- C2: for every request body, every insert the create-registration handler issues carries
the document `{ ...body, submittedAt: now }`, it issues one whenever the connection is
established and never more than one; in that document every field other than `submittedAt`
reads as in the body, `submittedAt` is the clock reading of the server (also when the body
supplies one), every field is `submittedAt` or a field of the body, and for a body without
fields the document is `submittedAt` alone. -/
theorem register_inserts_stamped_body (cfg : MongoConfig) (io : Io) (s : Conn) (body : Body) :
    (∀ doc accepted, Effect.insertOne doc accepted ∈ (register cfg io s body).effects →
        doc = registrationData body io.now) ∧
      (establishes io s = true →
        ∃ accepted, Effect.insertOne (registrationData body io.now) accepted ∈
          (register cfg io s body).effects) ∧
      countEffects Effect.isInsert (register cfg io s body).effects ≤ 1 ∧
      (∀ k, k ≠ "submittedAt" →
        getProp (registrationData body io.now) k = getProp body.entries k) ∧
      getProp (registrationData body io.now) "submittedAt" = some (.date io.now) ∧
      (∀ k v, (k, v) ∈ registrationData body io.now →
        k = "submittedAt" ∨ k ∈ body.entries.map Prod.fst) ∧
      (body.entries = [] → registrationData body io.now = [("submittedAt", .date io.now)]) := by
  refine ⟨fun doc accepted h => register_insert_doc cfg io s body doc accepted h, ?_,
    register_insert_count cfg io s body,
    fun k hk => getProp_registrationData_other body io.now k hk,
    getProp_registrationData_submittedAt body io.now, ?_,
    registrationData_of_entries_nil body io.now⟩
  · intro hest
    cases hi : io.insertOne with
    | error e =>
      refine ⟨false, ?_⟩
      rw [register_of_insert_error cfg io s body e hest hi]
      simp
    | ok id =>
      refine ⟨true, ?_⟩
      rw [register_of_insert_ok cfg io s body id hest hi]
      simp
  · intro k v hmem
    by_cases hk : k = "submittedAt"
    · exact Or.inl hk
    · right
      apply mem_keys_of_getProp_ne_none
      rw [← getProp_registrationData_other body io.now k hk]
      exact getProp_ne_none_of_mem _ k v hmem

/-- Witness of C2: a body that supplies its own `submittedAt`, on a fresh process with a
healthy store; the inserted document keeps `name` and carries the clock reading. -/
theorem register_inserts_stamped_body_witness :
    Effect.insertOne [("name", .str "Alice"), ("submittedAt", .date 7)] true ∈
        (register localConfig (Io.healthy 7 (.str "65a1") []) Conn.start
          (.object [("name", .str "Alice"), ("submittedAt", .str "1999-01-01")])).effects ∧
      [("name", JVal.str "Alice"), ("submittedAt", JVal.date 7)] =
        registrationData (.object [("name", .str "Alice"), ("submittedAt", .str "1999-01-01")])
          (Io.healthy 7 (.str "65a1") []).now :=
  have h : Effect.insertOne [("name", .str "Alice"), ("submittedAt", .date 7)] true ∈
      (register localConfig (Io.healthy 7 (.str "65a1") []) Conn.start
        (.object [("name", .str "Alice"), ("submittedAt", .str "1999-01-01")])).effects := by
    simp [register, initializeMongoDB, Io.healthy, Io.now, Conn.start, registrationData,
      copyDataProperties, copyKeys, getProp, setProp, Body.entries]
  ⟨h, (register_inserts_stamped_body localConfig (Io.healthy 7 (.str "65a1") []) Conn.start
    (.object [("name", .str "Alice"), ("submittedAt", .str "1999-01-01")])).1 _ _ h⟩

/-- C3: for every request body, when the connection is established and the store accepts the
insert with identifier `id`, the create-registration handler issues exactly one insert and
responds 201 with `success: true`, a message and `id`. -/
theorem register_success (cfg : MongoConfig) (io : Io) (s : Conn) (body : Body) (id : JVal)
    (hconn : establishes io s = true) (hins : io.insertOne = .ok id) :
    (register cfg io s body).response.status = 201 ∧
      (register cfg io s body).response.body =
        [("success", .bool true), ("message", .str "Registration successful"), ("id", id)] ∧
      getProp (register cfg io s body).response.body "id" = some id ∧
      countEffects Effect.isInsert (register cfg io s body).effects = 1 := by
  rw [register_of_insert_ok cfg io s body id hconn hins]
  refine ⟨rfl, rfl, by simp [getProp], ?_⟩
  rw [countEffects_append, (initializeMongoDB_effects cfg io s).1]
  simp [countEffects, Effect.isInsert]

/-- Witness of C3: the empty object on a fresh process with a healthy store. -/
theorem register_success_witness :
    establishes (Io.healthy 7 (.str "65a1") []) Conn.start = true ∧
      (register localConfig (Io.healthy 7 (.str "65a1") []) Conn.start
        (.object [])).response.status = 201 :=
  ⟨rfl, (register_success localConfig (Io.healthy 7 (.str "65a1") []) Conn.start (.object [])
    (.str "65a1") rfl rfl).1⟩

/-! ## List registrations -/

/-- C7: when the connection is established and the unfiltered find returns `docs`, the
list-registrations handler responds 200 with `success: true`, `data` equal to `docs` in the
order the store returned them, and `count` equal to the length of `data`; it queries the store
exactly once. -/
theorem registrations_success (cfg : MongoConfig) (io : Io) (s : Conn) (docs : List Props)
    (hconn : establishes io s = true) (hfind : io.toArray = .ok docs) :
    (registrations cfg io s).response.status = 200 ∧
      getProp (registrations cfg io s).response.body "success" = some (.bool true) ∧
      dataOf (registrations cfg io s).response.body = docs.map JVal.obj ∧
      getProp (registrations cfg io s).response.body "count" =
        some (.num (dataOf (registrations cfg io s).response.body).length) ∧
      countEffects Effect.isFind (registrations cfg io s).effects = 1 := by
  rw [registrations_of_find_ok cfg io s docs hconn hfind]
  refine ⟨rfl, by simp [getProp], by simp [dataOf, getProp], by simp [dataOf, getProp], ?_⟩
  rw [countEffects_append, (initializeMongoDB_effects cfg io s).2.1]
  simp [countEffects, Effect.isFind]

/-- Witness of C7: two stored documents, returned in the order of the store. -/
theorem registrations_success_witness :
    establishes (Io.healthy 9 .null [[("name", .str "Bob")], [("name", .str "Alice")]])
        Conn.start = true ∧
      dataOf (registrations localConfig
        (Io.healthy 9 .null [[("name", .str "Bob")], [("name", .str "Alice")]])
        Conn.start).response.body =
        [.obj [("name", .str "Bob")], .obj [("name", .str "Alice")]] :=
  ⟨rfl, (registrations_success localConfig
    (Io.healthy 9 .null [[("name", .str "Bob")], [("name", .str "Alice")]]) Conn.start
    [[("name", .str "Bob")], [("name", .str "Alice")]] rfl rfl).2.2.1⟩


/-! ## Failures -/

theorem initializeMongoDB_result_of_failsWith_init (cfg : MongoConfig) (io : Io) (s : Conn)
    (e : JsError)
    (h : (s.client = none ∧ io.construct = .error e) ∨
      (s.client = none ∧ io.construct.toBool = true ∧ io.connect = .error e)) :
    (initializeMongoDB cfg io s).result = .error e := by
  rcases h with ⟨hs, hc⟩ | ⟨hs, hc, hh⟩
  · rw [initializeMongoDB_construct_error cfg io s e hs hc]
  · cases hcon : io.construct with
    | error e' => simp [hcon, Except.toBool] at hc
    | ok u => rw [initializeMongoDB_connect_error cfg io s u e hs hcon hh]

/-- C4: on both data routes, when building the client, the handshake, the insert or the query
fails with an error `e`, the handler responds 500 with `success: false`, a message and `error`
equal to the message text of `e`, unchanged; and it makes each external call at most once (no
retry). -/
theorem data_route_failure (cfg : MongoConfig) (io : Io) (s : Conn) (r : Request) (e : JsError)
    (hr : r.isData = true) (hf : failsWith io s r e) :
    (handle cfg io s r).response.status = 500 ∧
      (∃ m, (handle cfg io s r).response.body =
        [("success", .bool false), ("message", .str m), ("error", .str e.message)]) ∧
      getProp (handle cfg io s r).response.body "success" = some (.bool false) ∧
      getProp (handle cfg io s r).response.body "error" = some (.str e.message) ∧
      countEffects Effect.isNewClient (handle cfg io s r).effects ≤ 1 ∧
      countEffects Effect.isConnect (handle cfg io s r).effects ≤ 1 ∧
      countEffects Effect.isInsert (handle cfg io s r).effects ≤ 1 ∧
      countEffects Effect.isFind (handle cfg io s r).effects ≤ 1 := by
  have hresp : ∃ m, (handle cfg io s r).response = failure m e := by
    cases r with
    | health => simp [Request.isData] at hr
    | register body =>
      refine ⟨"Registration failed", ?_⟩
      rcases hf with h1 | h2 | ⟨hest, hi⟩
      · have hres := initializeMongoDB_result_of_failsWith_init cfg io s e (Or.inl h1)
        simp only [handle]
        rw [register_of_init_error cfg io s body e hres]
      · have hres := initializeMongoDB_result_of_failsWith_init cfg io s e (Or.inr h2)
        simp only [handle]
        rw [register_of_init_error cfg io s body e hres]
      · simp only [handle]
        rw [register_of_insert_error cfg io s body e hest hi]
    | registrations =>
      refine ⟨"Failed to fetch registrations", ?_⟩
      rcases hf with h1 | h2 | ⟨hest, hi⟩
      · have hres := initializeMongoDB_result_of_failsWith_init cfg io s e (Or.inl h1)
        simp only [handle]
        rw [registrations_of_init_error cfg io s e hres]
      · have hres := initializeMongoDB_result_of_failsWith_init cfg io s e (Or.inr h2)
        simp only [handle]
        rw [registrations_of_init_error cfg io s e hres]
      · simp only [handle]
        rw [registrations_of_find_error cfg io s e hest hi]
  obtain ⟨m, hm⟩ := hresp
  have hcount := handle_effect_counts cfg io s r
  rw [hm]
  exact ⟨rfl, ⟨m, rfl⟩, by simp [failure, failureBody, getProp],
    by simp [failure, failureBody, getProp], hcount⟩

/-- Witness of C4: the store rejects the insert on an established connection. -/
theorem data_route_failure_witness :
    failsWith ⟨3, 0, .ok (), .ok (), .error ⟨"E11000 duplicate key error"⟩, .ok []⟩ Conn.start
        (.register (.object [("_id", .num 1)])) ⟨"E11000 duplicate key error"⟩ ∧
      getProp (handle localConfig
        ⟨3, 0, .ok (), .ok (), .error ⟨"E11000 duplicate key error"⟩, .ok []⟩ Conn.start
        (.register (.object [("_id", .num 1)]))).response.body "error" =
        some (.str "E11000 duplicate key error") :=
  have h : failsWith ⟨3, 0, .ok (), .ok (), .error ⟨"E11000 duplicate key error"⟩, .ok []⟩
      Conn.start (.register (.object [("_id", .num 1)])) ⟨"E11000 duplicate key error"⟩ :=
    Or.inr (Or.inr ⟨rfl, rfl⟩)
  ⟨h, (data_route_failure localConfig
    ⟨3, 0, .ok (), .ok (), .error ⟨"E11000 duplicate key error"⟩, .ok []⟩ Conn.start
    (.register (.object [("_id", .num 1)])) ⟨"E11000 duplicate key error"⟩ rfl h).2.2.2.1⟩


/-! ## Unreachable store -/

theorem initializeMongoDB_storeDown (cfg : MongoConfig) (io : Io) (s : Conn)
    (hcol : s.collection = none) (hdown : io.storeDown) :
    (initializeMongoDB cfg io s).conn.collection = none ∧
      ((∃ e, e.message ≠ "" ∧ (initializeMongoDB cfg io s).result = .error e) ∨
        (∃ c, s.client = some c ∧ (initializeMongoDB cfg io s).conn = s)) := by
  cases hcl : s.client with
  | some c =>
    rw [initializeMongoDB_of_client cfg io s c hcl]
    exact ⟨hcol, Or.inr ⟨c, rfl, rfl⟩⟩
  | none =>
    rcases hdown with ⟨e, hc, hne⟩ | ⟨hc, e, hh, hne⟩
    · rw [initializeMongoDB_construct_error cfg io s e hcl hc]
      exact ⟨hcol, Or.inl ⟨e, hne, rfl⟩⟩
    · cases hcon : io.construct with
      | error e' => simp [hcon, Except.toBool] at hc
      | ok u =>
        rw [initializeMongoDB_connect_error cfg io s u e hcl hcon hh]
        exact ⟨hcol, Or.inl ⟨e, hne, rfl⟩⟩

theorem handle_storeDown (cfg : MongoConfig) (io : Io) (s : Conn) (r : Request)
    (hcol : s.collection = none) (hdown : io.storeDown) :
    (handle cfg io s r).conn.collection = none ∧
      (r.isData = true →
        (handle cfg io s r).response.status = 500 ∧
        getProp (handle cfg io s r).response.body "success" = some (.bool false) ∧
        ∃ m, getProp (handle cfg io s r).response.body "error" = some (.str m) ∧ m ≠ "") := by
  obtain ⟨hconn, hres⟩ := initializeMongoDB_storeDown cfg io s hcol hdown
  cases r with
  | health => exact ⟨by simpa [handle, health] using hcol, by simp [Request.isData]⟩
  | register body =>
    simp only [handle]
    rcases hres with ⟨e, hne, he⟩ | ⟨c, hc, -⟩
    · rw [register_of_init_error cfg io s body e he]
      exact ⟨hconn, fun _ => ⟨rfl, by simp [failure, failureBody, getProp],
        e.message, by simp [failure, failureBody, getProp], hne⟩⟩
    · rw [register_of_no_collection cfg io s body c hc hcol]
      exact ⟨hcol, fun _ => ⟨rfl, by simp [failure, failureBody, getProp],
        (typeErrorReading "insertOne").message, by simp [failure, failureBody, getProp],
        typeErrorReading_message_ne _⟩⟩
  | registrations =>
    simp only [handle]
    rcases hres with ⟨e, hne, he⟩ | ⟨c, hc, -⟩
    · rw [registrations_of_init_error cfg io s e he]
      exact ⟨hconn, fun _ => ⟨rfl, by simp [failure, failureBody, getProp],
        e.message, by simp [failure, failureBody, getProp], hne⟩⟩
    · rw [registrations_of_no_collection cfg io s c hc hcol]
      exact ⟨hcol, fun _ => ⟨rfl, by simp [failure, failureBody, getProp],
        (typeErrorReading "find").message, by simp [failure, failureBody, getProp],
        typeErrorReading_message_ne _⟩⟩

theorem serve_storeDown (cfg : MongoConfig) (reqs : List (Request × Io)) (s : Conn)
    (hcol : s.collection = none) (hdown : ∀ p ∈ reqs, p.2.storeDown) :
    ∀ q ∈ reqs.zip (serve cfg s reqs), q.1.1.isData = true →
      q.2.response.status = 500 ∧
      getProp q.2.response.body "success" = some (.bool false) ∧
      ∃ m, getProp q.2.response.body "error" = some (.str m) ∧ m ≠ "" := by
  induction reqs generalizing s with
  | nil => intro q hq; simp [serve] at hq
  | cons p rest ih =>
    obtain ⟨r, io⟩ := p
    have hio : io.storeDown := hdown (r, io) (List.mem_cons_self _ _)
    have hstep := handle_storeDown cfg io s r hcol hio
    intro q hq
    simp only [serve, List.zip_cons_cons, List.mem_cons] at hq
    rcases hq with rfl | hq
    · exact hstep.2
    · exact ih _ hstep.1 (fun p hp => hdown p (List.mem_cons_of_mem _ hp)) q hq

/-- C5: from process start, if during every request the store cannot be reached (building the
client throws on the connection string, or the handshake fails, the error of the driver having
a non-empty message), then every `POST /api/register` and every `GET /api/registrations`
of the series, the first and every later one, is answered 500 with `success: false` and a
non-empty `error` string. -/
theorem unreachable_store_always_500 (cfg : MongoConfig) (reqs : List (Request × Io))
    (hdown : ∀ p ∈ reqs, p.2.storeDown) :
    ∀ q ∈ reqs.zip (serve cfg Conn.start reqs), q.1.1.isData = true →
      q.2.response.status = 500 ∧
      getProp q.2.response.body "success" = some (.bool false) ∧
      ∃ m, getProp q.2.response.body "error" = some (.str m) ∧ m ≠ "" :=
  serve_storeDown cfg reqs Conn.start rfl hdown

/-- Witness of C5: a create then a list request while the handshake is refused. -/
theorem unreachable_store_always_500_witness :
    (∀ p ∈ downSeries, p.2.storeDown) ∧
      ∀ q ∈ downSeries.zip (serve localConfig Conn.start downSeries), q.1.1.isData = true →
        q.2.response.status = 500 ∧
        getProp q.2.response.body "success" = some (.bool false) ∧
        ∃ m, getProp q.2.response.body "error" = some (.str m) ∧ m ≠ "" :=
  have h : ∀ p ∈ downSeries, p.2.storeDown := by
    intro p hp
    simp only [downSeries, List.mem_cons, List.mem_singleton, List.not_mem_nil, or_false] at hp
    rcases hp with rfl | rfl <;>
      exact Or.inr ⟨rfl, ⟨"connect ECONNREFUSED 127.0.0.1:27017"⟩, rfl, by decide⟩
  ⟨h, unreachable_store_always_500 localConfig downSeries h⟩

/-! ## Memoization -/

theorem handle_of_client (cfg : MongoConfig) (io : Io) (s : Conn) (r : Request)
    (c : MongoClient) (h : s.client = some c) :
    (handle cfg io s r).conn = s ∧
      countEffects Effect.isConnect (handle cfg io s r).effects = 0 ∧
      countEffects Effect.isNewClient (handle cfg io s r).effects = 0 := by
  obtain ⟨cl, d, col⟩ := s
  simp only at h
  subst h
  cases r <;> cases col <;> cases hi : io.insertOne <;> cases hf : io.toArray <;>
    simp [handle, health, register, registrations, initializeMongoDB, hi, hf,
      countEffects, Effect.isConnect, Effect.isNewClient]

theorem connAfter_of_client (cfg : MongoConfig) (s : Conn) (reqs : List (Request × Io))
    (c : MongoClient) (h : s.client = some c) : connAfter cfg s reqs = s := by
  induction reqs with
  | nil => rfl
  | cons p rest ih =>
    obtain ⟨r, io⟩ := p
    simp only [connAfter]
    rw [(handle_of_client cfg io s r c h).1]
    exact ih

theorem serve_of_client_no_connect (cfg : MongoConfig) (s : Conn) (reqs : List (Request × Io))
    (c : MongoClient) (h : s.client = some c) :
    countEffects Effect.isConnect (allEffects (serve cfg s reqs)) = 0 := by
  induction reqs with
  | nil => rfl
  | cons p rest ih =>
    obtain ⟨r, io⟩ := p
    simp only [serve, allEffects]
    rw [countEffects_append, (handle_of_client cfg io s r c h).2.1,
      (handle_of_client cfg io s r c h).1, ih]

/-- A request that performs a handshake leaves a client behind. -/
theorem handle_connect_sets_client (cfg : MongoConfig) (io : Io) (s : Conn) (r : Request)
    (h : countEffects Effect.isConnect (handle cfg io s r).effects ≠ 0) :
    (handle cfg io s r).conn.client = some ⟨cfg.uri⟩ := by
  obtain ⟨cl, d, col⟩ := s
  revert h
  cases r <;> cases cl <;> cases col <;> cases hc : io.construct <;> cases hh : io.connect <;>
    cases hi : io.insertOne <;> cases hf : io.toArray <;>
    simp [handle, health, register, registrations, initializeMongoDB, hc, hh, hi, hf,
      countEffects, Effect.isConnect]

theorem serve_connect_count (cfg : MongoConfig) (s : Conn) (reqs : List (Request × Io)) :
    countEffects Effect.isConnect (allEffects (serve cfg s reqs)) ≤ 1 := by
  induction reqs generalizing s with
  | nil => simp [serve, allEffects, countEffects]
  | cons p rest ih =>
    obtain ⟨r, io⟩ := p
    simp only [serve, allEffects]
    rw [countEffects_append]
    by_cases h0 : countEffects Effect.isConnect (handle cfg io s r).effects = 0
    · rw [h0, Nat.zero_add]
      exact ih _
    · have hcl := handle_connect_sets_client cfg io s r h0
      rw [serve_of_client_no_connect cfg _ rest _ hcl]
      exact (handle_effect_counts cfg io s r).2.1

/-- C8: once a call of `initializeMongoDB` has returned a handle, every later call in the
process, after any further requests and whatever the collaborators would answer, returns the
same handle without building a client and without a handshake, and leaves the variables as
they are; and any series of requests, from any state, performs at most one handshake. -/
theorem initializeMongoDB_memoized (cfg : MongoConfig) (io : Io) (s : Conn) (handle₀ : Conn)
    (hok : (initializeMongoDB cfg io s).result = .ok handle₀) :
    (∀ (later : List (Request × Io)) (io' : Io),
        initializeMongoDB cfg io' (connAfter cfg (initializeMongoDB cfg io s).conn later) =
          ⟨(initializeMongoDB cfg io s).conn, [], .ok handle₀⟩) ∧
      ∀ (s₀ : Conn) (reqs : List (Request × Io)),
        countEffects Effect.isConnect (allEffects (serve cfg s₀ reqs)) ≤ 1 := by
  refine ⟨?_, fun s₀ reqs => serve_connect_count cfg s₀ reqs⟩
  intro later io'
  have key : ∃ c, (initializeMongoDB cfg io s).conn.client = some c ∧
      handle₀ = (initializeMongoDB cfg io s).conn := by
    obtain ⟨cl, d, col⟩ := s
    revert hok
    cases cl <;> cases hc : io.construct <;> cases hh : io.connect <;>
      simp [initializeMongoDB, hc, hh] <;> intro h <;> exact h.symm
  obtain ⟨c, hc, hh⟩ := key
  rw [connAfter_of_client cfg _ later c hc, initializeMongoDB_of_client cfg io' _ c hc, hh]

/-- Witness of C8: first establishment on a fresh process, then a create request, then another
call of the gateway while the store is down. -/
theorem initializeMongoDB_memoized_witness :
    (initializeMongoDB localConfig (Io.healthy 0 .null []) Conn.start).result = .ok Conn.ready ∧
      initializeMongoDB localConfig (Io.unreachable 5 ⟨"connect ECONNREFUSED"⟩)
          (connAfter localConfig
            (initializeMongoDB localConfig (Io.healthy 0 .null []) Conn.start).conn
            [(.register (.object []), Io.healthy 1 (.str "65a1") [])]) =
        ⟨(initializeMongoDB localConfig (Io.healthy 0 .null []) Conn.start).conn, [],
          .ok Conn.ready⟩ :=
  ⟨rfl, (initializeMongoDB_memoized localConfig (Io.healthy 0 .null []) Conn.start Conn.ready
    rfl).1 [(.register (.object []), Io.healthy 1 (.str "65a1") [])]
    (Io.unreachable 5 ⟨"connect ECONNREFUSED"⟩)⟩

/-! ## Failed handshake -/

/-- C9, evaluated on the code: a first request whose handshake fails leaves `client` set with
`db` and `collection` unset, a state that is neither disconnected nor connected; the next call
of `initializeMongoDB`, with a store that has become reachable, makes no call, throws nothing
and returns a handle without collection, and the next create request is answered 500 with the
text of a `TypeError` instead of a connection error. -/
theorem failed_handshake_leaves_client_set :
    (register localConfig (Io.unreachable 1 ⟨"connect ECONNREFUSED"⟩) Conn.start
        (.object [])).conn = ⟨some ⟨localConfig.uri⟩, none, none⟩ ∧
      ¬ (Conn.mk (some ⟨localConfig.uri⟩) none none).disconnected ∧
      ¬ (Conn.mk (some ⟨localConfig.uri⟩) none none).connected ∧
      (initializeMongoDB localConfig (Io.healthy 2 (.str "65a1") [])
        ⟨some ⟨localConfig.uri⟩, none, none⟩).result =
          .ok ⟨some ⟨localConfig.uri⟩, none, none⟩ ∧
      (initializeMongoDB localConfig (Io.healthy 2 (.str "65a1") [])
        ⟨some ⟨localConfig.uri⟩, none, none⟩).effects = [] ∧
      (register localConfig (Io.healthy 2 (.str "65a1") [])
        ⟨some ⟨localConfig.uri⟩, none, none⟩ (.object [])).response.status = 500 ∧
      getProp (register localConfig (Io.healthy 2 (.str "65a1") [])
        ⟨some ⟨localConfig.uri⟩, none, none⟩ (.object [])).response.body "error" =
          some (.str "Cannot read properties of undefined (reading 'insertOne')") := by
  refine ⟨rfl, by decide, by decide, rfl, rfl, rfl, ?_⟩
  simp [register, initializeMongoDB, failure, failureBody, getProp, typeErrorReading]


/-! ## Store contents -/

theorem storeAfter_append (contents : List Props) (xs ys : List Effect) :
    storeAfter contents (xs ++ ys) = storeAfter (storeAfter contents xs) ys := by
  induction xs generalizing contents with
  | nil => rfl
  | cons e rest ih =>
    cases e with
    | insertOne doc acc => cases acc <;> simp [storeAfter, ih]
    | _ => simp [storeAfter, ih]

theorem storeAfter_of_no_insert (contents : List Props) (es : List Effect)
    (h : countEffects Effect.isInsert es = 0) : storeAfter contents es = contents := by
  induction es with
  | nil => rfl
  | cons e rest ih =>
    cases e with
    | insertOne doc acc => simp [countEffects, Effect.isInsert] at h
    | _ =>
      simp only [storeAfter]
      apply ih
      simpa [countEffects, Effect.isInsert] using h

theorem handle_read_no_insert (cfg : MongoConfig) (io : Io) (s : Conn) (r : Request)
    (h : r.isWrite = false) : countEffects Effect.isInsert (handle cfg io s r).effects = 0 := by
  cases r with
  | register body => simp [Request.isWrite] at h
  | health => simp [handle, health, countEffects]
  | registrations =>
    obtain ⟨cl, d, col⟩ := s
    cases cl <;> cases col <;> cases hc : io.construct <;> cases hh : io.connect <;>
      cases hf : io.toArray <;>
      simp [handle, registrations, initializeMongoDB, hc, hh, hf, countEffects,
        Effect.isInsert]

theorem registrations_of_status_200 (cfg : MongoConfig) (io : Io) (s : Conn)
    (h : (registrations cfg io s).response.status = 200) :
    ∃ docs, io.toArray = .ok docs ∧
      (registrations cfg io s).response.body =
        [("success", .bool true), ("count", .num docs.length),
          ("data", .arr (docs.map JVal.obj))] := by
  cases hest : establishes io s with
  | true =>
    cases hf : io.toArray with
    | error e =>
      rw [registrations_of_find_error cfg io s e hest hf] at h
      simp [failure] at h
    | ok docs =>
      refine ⟨docs, rfl, ?_⟩
      rw [registrations_of_find_ok cfg io s docs hest hf]
  | false =>
    rcases not_establishes_cases cfg io s hest with ⟨e, -, he⟩ | ⟨c, hc, hcol⟩
    · rw [registrations_of_init_error cfg io s e he] at h
      simp [failure] at h
    · rw [registrations_of_no_collection cfg io s c hc hcol] at h
      simp [failure] at h

theorem register_storeAfter (cfg : MongoConfig) (io : Io) (s : Conn) (body : Body)
    (contents : List Props) :
    storeAfter contents (register cfg io s body).effects = contents ∨
      storeAfter contents (register cfg io s body).effects =
        contents ++ [registrationData body io.now] := by
  have hno := (initializeMongoDB_effects cfg io s).1
  cases hest : establishes io s with
  | true =>
    cases hi : io.insertOne with
    | error e =>
      left
      rw [register_of_insert_error cfg io s body e hest hi, storeAfter_append,
        storeAfter_of_no_insert _ _ hno]
      simp [storeAfter]
    | ok id =>
      right
      rw [register_of_insert_ok cfg io s body id hest hi, storeAfter_append,
        storeAfter_of_no_insert _ _ hno]
      simp [storeAfter]
  | false =>
    left
    apply storeAfter_of_no_insert
    rcases not_establishes_cases cfg io s hest with ⟨e, -, he⟩ | ⟨c, hc, hcol⟩
    · rw [register_of_init_error cfg io s body e he, countEffects_append, hno]
      simp [countEffects, Effect.isInsert]
    · rw [register_of_no_collection cfg io s body c hc hcol]
      simp [countEffects, Effect.isInsert]

theorem serve_reads (cfg : MongoConfig) (reqs : List (Request × Io)) (s : Conn)
    (contents : List Props) (hreads : ∀ p ∈ reqs, p.1.isWrite = false)
    (hstore : faithfulFinds cfg s contents reqs) :
    countEffects Effect.isInsert (allEffects (serve cfg s reqs)) = 0 ∧
      ∀ q ∈ reqs.zip (serve cfg s reqs), q.1.1 = .registrations →
        q.2.response.status = 200 →
        ∃ docs : List Props, dataOf q.2.response.body = docs.map JVal.obj ∧
          docs.Perm contents ∧
          getProp q.2.response.body "count" = some (.num docs.length) := by
  induction reqs generalizing s with
  | nil => exact ⟨rfl, fun q hq => by simp [serve] at hq⟩
  | cons p rest ih =>
    obtain ⟨r, io⟩ := p
    have hr : r.isWrite = false := hreads (r, io) (List.mem_cons_self _ _)
    have hno := handle_read_no_insert cfg io s r hr
    obtain ⟨hhead, htail⟩ := hstore
    rw [storeAfter_of_no_insert _ _ hno] at htail
    obtain ⟨ihc, ihq⟩ := ih _ (fun p hp => hreads p (List.mem_cons_of_mem _ hp)) htail
    refine ⟨?_, ?_⟩
    · simp only [serve, allEffects]
      rw [countEffects_append, hno, ihc]
    · intro q hq
      simp only [serve, List.zip_cons_cons, List.mem_cons] at hq
      rcases hq with rfl | hq
      · intro hget h200
        simp only at hget
        subst hget
        simp only [handle] at h200 ⊢
        obtain ⟨docs, hf, hbody⟩ := registrations_of_status_200 cfg io s h200
        refine ⟨docs, ?_, hhead rfl docs hf, ?_⟩
        · rw [hbody]; simp [dataOf, getProp]
        · rw [hbody]; simp [getProp]
      · exact ihq q hq

/-- C10: along any series of health and list requests (no create request), served from any
state, no insert is issued and the contents of the collection stay as they were, while a create
request changes the contents by at most the one document it inserts; hence, when the store
answers queries with its contents in some order, any two successful
`GET /api/registrations` of the series return the same documents up to order, with the same
count. -/
theorem reads_leave_store_unchanged (cfg : MongoConfig) (s : Conn) (contents : List Props)
    (reqs : List (Request × Io)) (hreads : ∀ p ∈ reqs, p.1.isWrite = false)
    (hstore : faithfulFinds cfg s contents reqs) :
    storeAfter contents (allEffects (serve cfg s reqs)) = contents ∧
      countEffects Effect.isInsert (allEffects (serve cfg s reqs)) = 0 ∧
      (∀ (io : Io) (s' : Conn) (body : Body),
        storeAfter contents (register cfg io s' body).effects = contents ∨
        storeAfter contents (register cfg io s' body).effects =
          contents ++ [registrationData body io.now]) ∧
      ∀ q₁ ∈ reqs.zip (serve cfg s reqs), ∀ q₂ ∈ reqs.zip (serve cfg s reqs),
        q₁.1.1 = .registrations → q₂.1.1 = .registrations →
        q₁.2.response.status = 200 → q₂.2.response.status = 200 →
        ∃ d₁ d₂ : List Props, dataOf q₁.2.response.body = d₁.map JVal.obj ∧
          dataOf q₂.2.response.body = d₂.map JVal.obj ∧ d₁.Perm d₂ ∧
          getProp q₁.2.response.body "count" = getProp q₂.2.response.body "count" := by
  obtain ⟨hcount, hdata⟩ := serve_reads cfg reqs s contents hreads hstore
  refine ⟨storeAfter_of_no_insert _ _ hcount, hcount,
    fun io s' body => register_storeAfter cfg io s' body contents, ?_⟩
  intro q₁ hq₁ q₂ hq₂ hg₁ hg₂ h₁ h₂
  obtain ⟨d₁, hd₁, hp₁, hc₁⟩ := hdata q₁ hq₁ hg₁ h₁
  obtain ⟨d₂, hd₂, hp₂, hc₂⟩ := hdata q₂ hq₂ hg₂ h₂
  refine ⟨d₁, d₂, hd₁, hd₂, hp₁.trans hp₂.symm, ?_⟩
  rw [hc₁, hc₂, hp₁.length_eq, hp₂.length_eq]

/-- Witness of C10: two list requests over a collection of two documents, which the store
returns in different orders. -/
theorem reads_leave_store_unchanged_witness :
    (∀ p ∈ readSeries, p.1.isWrite = false) ∧
      faithfulFinds localConfig Conn.start
        [[("name", .str "Alice")], [("name", .str "Bob")]] readSeries ∧
      storeAfter [[("name", .str "Alice")], [("name", .str "Bob")]]
        (allEffects (serve localConfig Conn.start readSeries)) =
        [[("name", .str "Alice")], [("name", .str "Bob")]] :=
  have hreads : ∀ p ∈ readSeries, p.1.isWrite = false := by
    intro p hp
    simp only [readSeries, List.mem_cons, List.mem_singleton, List.not_mem_nil, or_false] at hp
    rcases hp with rfl | rfl | rfl <;> rfl
  have hstore : faithfulFinds localConfig Conn.start
      [[("name", .str "Alice")], [("name", .str "Bob")]] readSeries := by
    refine ⟨?_, ?_, ?_, trivial⟩
    · intro _ docs h
      obtain rfl : [[("name", JVal.str "Alice")], [("name", JVal.str "Bob")]] = docs := by
        simpa [Io.healthy] using h
      exact List.Perm.refl _
    · intro h
      cases h
    · intro _ docs h
      obtain rfl : [[("name", JVal.str "Bob")], [("name", JVal.str "Alice")]] = docs := by
        simpa [Io.healthy] using h
      exact List.Perm.swap _ _ _
  ⟨hreads, hstore,
    (reads_leave_store_unchanged localConfig Conn.start _ readSeries hreads hstore).1⟩

/-! ## Create then list -/

theorem establishes_after_register_ok (cfg : MongoConfig) (io io' : Io) (s : Conn) (body : Body)
    (h : establishes io s = true) :
    establishes io' (register cfg io s body).conn = true := by
  obtain ⟨c, d, col, hres, hconn, -⟩ := initializeMongoDB_of_establishes cfg io s h
  cases hi : io.insertOne with
  | error e => rw [register_of_insert_error cfg io s body e h hi]; simp [hconn, establishes]
  | ok id => rw [register_of_insert_ok cfg io s body id h hi]; simp [hconn, establishes]

/-- C1 as stated fails: a body that carries its own `submittedAt` is accepted (201), the
collection then holds one document, the list request returns it (200), and no returned
document has the field `submittedAt` with the value of the body. -/
theorem roundtrip_caller_submittedAt_not_kept :
    establishes (Io.healthy 7 (.str "65a1") []) Conn.start = true ∧
      (register localConfig (Io.healthy 7 (.str "65a1") []) Conn.start
        (.object [("submittedAt", .str "1999-01-01")])).response.status = 201 ∧
      storeAfter [] (register localConfig (Io.healthy 7 (.str "65a1") []) Conn.start
        (.object [("submittedAt", .str "1999-01-01")])).effects =
        [[("submittedAt", .date 7)]] ∧
      (registrations localConfig (Io.healthy 9 .null [[("submittedAt", .date 7)]])
        (register localConfig (Io.healthy 7 (.str "65a1") []) Conn.start
          (.object [("submittedAt", .str "1999-01-01")])).conn).response.status = 200 ∧
      ¬ ∃ d, JVal.obj d ∈ dataOf (registrations localConfig
          (Io.healthy 9 .null [[("submittedAt", .date 7)]])
          (register localConfig (Io.healthy 7 (.str "65a1") []) Conn.start
            (.object [("submittedAt", .str "1999-01-01")])).conn).response.body ∧
        ∀ k v, getProp (Body.object [("submittedAt", .str "1999-01-01")]).entries k = some v →
          getProp d k = some v := by
  refine ⟨rfl, rfl, ?_, rfl, ?_⟩
  · simp [register, initializeMongoDB, Io.healthy, Io.now, Conn.start, storeAfter,
      registrationData, copyDataProperties, copyKeys, getProp, setProp, Body.entries]
  · rintro ⟨d, hd, hall⟩
    have hdata : dataOf (registrations localConfig
        (Io.healthy 9 .null [[("submittedAt", .date 7)]])
        (register localConfig (Io.healthy 7 (.str "65a1") []) Conn.start
          (.object [("submittedAt", .str "1999-01-01")])).conn).response.body =
        [.obj [("submittedAt", .date 7)]] := by
      simp [register, registrations, initializeMongoDB, Io.healthy, Conn.start, dataOf, getProp]
    rw [hdata] at hd
    simp only [List.mem_singleton, JVal.obj.injEq] at hd
    subst hd
    have := hall "submittedAt" (.str "1999-01-01") (by simp [Body.entries, getProp])
    simp [getProp] at this

/-- C1, amended: when the connection is established and the store accepts the insert, and the
list request that follows is answered by the store with `docs` in which every document of the
collection is found (every accepted insert adds its document; the store may add fields of its
own, such as `_id`), the list request responds 200 with a `data` sequence that contains a
document in which every field of the body other than `submittedAt` has the value of the body,
and whose `submittedAt` is the clock reading the handler took, no earlier than the reading at
the start of the create request. -/
theorem register_then_list_roundtrip (cfg : MongoConfig) (io₁ io₂ : Io) (s : Conn) (P : Body)
    (id : JVal) (contents docs : List Props)
    (hconn : establishes io₁ s = true) (hins : io₁.insertOne = .ok id)
    (hfind : io₂.toArray = .ok docs)
    (hall : ∀ d ∈ storeAfter contents (register cfg io₁ s P).effects,
      ∃ d' ∈ docs, ∀ k v, getProp d k = some v → getProp d' k = some v) :
    (registrations cfg io₂ (register cfg io₁ s P).conn).response.status = 200 ∧
      ∃ d, JVal.obj d ∈
          dataOf (registrations cfg io₂ (register cfg io₁ s P).conn).response.body ∧
        (∀ k v, k ≠ "submittedAt" → getProp P.entries k = some v → getProp d k = some v) ∧
        ∃ t, getProp d "submittedAt" = some (.date t) ∧ t = io₁.now ∧ io₁.start ≤ t := by
  have hest := establishes_after_register_ok cfg io₁ io₂ s P hconn
  have hmem : registrationData P io₁.now ∈
      storeAfter contents (register cfg io₁ s P).effects := by
    rw [register_of_insert_ok cfg io₁ s P id hconn hins, storeAfter_append,
      storeAfter_of_no_insert _ _ (initializeMongoDB_effects cfg io₁ s).1]
    simp [storeAfter]
  obtain ⟨d', hd', hsup⟩ := hall _ hmem
  rw [registrations_of_find_ok cfg io₂ _ docs hest hfind]
  refine ⟨rfl, d', ?_, ?_, io₁.now,
    hsup _ _ (getProp_registrationData_submittedAt P io₁.now), rfl, Nat.le_add_right _ _⟩
  · simp only [dataOf, getProp]
    simp only [if_neg (show ¬ "success" = "data" by decide),
      if_neg (show ¬ "count" = "data" by decide), if_pos]
    exact List.mem_map_of_mem _ hd'
  · intro k v hk hv
    apply hsup
    rw [getProp_registrationData_other P io₁.now k hk]
    exact hv

/-- Witness of C1, amended: the scenario of Alice in team A on a fresh process and an empty
collection; the request arrives at clock reading 5 and is stamped at 7, and the store returns
the document with the `_id` it assigned. -/
theorem register_then_list_roundtrip_witness :
    establishes ⟨5, 2, .ok (), .ok (), .ok (.str "65a1"), .ok []⟩ Conn.start = true ∧
      (∀ d ∈ storeAfter [] (register localConfig
          ⟨5, 2, .ok (), .ok (), .ok (.str "65a1"), .ok []⟩ Conn.start
          (.object [("name", .str "Alice"), ("team", .str "A")])).effects,
        ∃ d' ∈ [[("_id", JVal.str "65a1"), ("name", JVal.str "Alice"), ("team", JVal.str "A"),
            ("submittedAt", JVal.date 7)]],
          ∀ k v, getProp d k = some v → getProp d' k = some v) ∧
      ∃ d, JVal.obj d ∈ dataOf (registrations localConfig
          (Io.healthy 9 .null [[("_id", .str "65a1"), ("name", .str "Alice"),
            ("team", .str "A"), ("submittedAt", .date 7)]])
          (register localConfig ⟨5, 2, .ok (), .ok (), .ok (.str "65a1"), .ok []⟩ Conn.start
            (.object [("name", .str "Alice"), ("team", .str "A")])).conn).response.body ∧
        (∀ k v, k ≠ "submittedAt" →
          getProp (Body.object [("name", .str "Alice"), ("team", .str "A")]).entries k =
            some v → getProp d k = some v) ∧
        ∃ t, getProp d "submittedAt" = some (.date t) ∧
          t = Io.now ⟨5, 2, .ok (), .ok (), .ok (.str "65a1"), .ok []⟩ ∧ 5 ≤ t :=
  have hall : ∀ d ∈ storeAfter [] (register localConfig
      ⟨5, 2, .ok (), .ok (), .ok (.str "65a1"), .ok []⟩ Conn.start
      (.object [("name", .str "Alice"), ("team", .str "A")])).effects,
      ∃ d' ∈ [[("_id", JVal.str "65a1"), ("name", JVal.str "Alice"), ("team", JVal.str "A"),
          ("submittedAt", JVal.date 7)]],
        ∀ k v, getProp d k = some v → getProp d' k = some v := by
    intro d hd
    have hd' : d = [("name", .str "Alice"), ("team", .str "A"), ("submittedAt", .date 7)] := by
      simpa [register, initializeMongoDB, Conn.start, storeAfter, registrationData, Io.now,
        copyDataProperties, copyKeys, getProp, setProp, Body.entries] using hd
    subst hd'
    refine ⟨_, List.mem_singleton.mpr rfl, ?_⟩
    intro k v hk
    simp only [getProp] at hk ⊢
    by_cases h1 : "name" = k
    · subst h1
      simpa using hk
    · by_cases h2 : "team" = k
      · subst h2
        simpa using hk
      · by_cases h3 : "submittedAt" = k
        · subst h3
          simpa using hk
        · simp [h1, h2, h3] at hk
  ⟨rfl, hall, (register_then_list_roundtrip localConfig
    ⟨5, 2, .ok (), .ok (), .ok (.str "65a1"), .ok []⟩
    (Io.healthy 9 .null [[("_id", .str "65a1"), ("name", .str "Alice"), ("team", .str "A"),
      ("submittedAt", .date 7)]])
    Conn.start (.object [("name", .str "Alice"), ("team", .str "A")]) (.str "65a1") []
    [[("_id", .str "65a1"), ("name", .str "Alice"), ("team", .str "A"),
      ("submittedAt", .date 7)]] rfl rfl rfl hall).2⟩

end Server
